import Mathlib

/-!
A shallow embedding of the hazard-pointer library `haphazard`
(files `src/holder.rs`, `src/object.rs`, tests `tests/lib.rs`).

Modelling conventions:
* Raw pointers are `Nat`, with `0` playing the role of the null pointer.
* A `HazardSlot` is the slot a holder rents from its domain: the atomically
  written `protected` cell (`prot`) plus the `active` pooling flag.
* A domain is its slot list plus its retire list.  The domain implementation
  itself (`HazPtrDomain`, `HazPtr`, `DomainId`) is not among the given source
  files; the definitions that need it are modelled from the spec and say so
  in their doc comments.
* Panics (`assert_eq!` / `debug_assert_eq!`) are `Except.error` carrying the
  panic message; `debug_assert_eq!` is additionally guarded by a `dbg` flag
  recording whether debug assertions are compiled in.
* The concurrent environment is modelled by making every racing load an
  explicit input: `try_protect`'s acquire re-load is the parameter `ptr2`,
  and `protect`'s successive acquire re-loads are the list `obs`.
* Deleters are opaque `Nat` tags carried in retire records; a deleter runs
  exactly when its record appears in the `freed` list of a reclamation scan.
  The holder protocol never touches the retire list, which is how "no
  deleter is invoked" facts are stated.
-/

/-- Raw pointers; `0` is null. -/
abbrev Ptr := Nat

/-- The memory orderings of `std::sync::atomic::Ordering`. -/
inductive MemOrder
  | relaxed
  | acquire
  | release
  | acqrel
  | seqcst
  deriving DecidableEq, Repr

/-- A hazard slot: the atomically written `protected` pointer cell (`prot`)
and the `active` flag used for pooling slots inside a domain. -/
structure HazardSlot where
  prot : Ptr
  active : Bool
  deriving DecidableEq, Repr

/-- A retire record `(object pointer, deleter)`; the deleter is an opaque tag. -/
structure RetireRecord where
  ptr : Ptr
  deleter : Nat
  deriving DecidableEq, Repr

/-- A domain: its slot list and its retire list. -/
structure Domain where
  slots : List HazardSlot
  retired : List RetireRecord
  deriving DecidableEq, Repr

/-- The state a holder can reach: the slot it rents and the issuing domain. -/
structure HolderSt where
  slot : HazardSlot
  dom : Domain
  deriving DecidableEq, Repr

/-- Events emitted by the slot primitives, used to state in which order and
how often a holder's `Drop` runs them. -/
inductive SlotEvent
  | resetEv
  | releaseEv
  deriving DecidableEq, Repr

/-- Modelled from the spec: `HazPtr::protect` stores the candidate pointer
into the slot's `protected` cell (protocol step 3, "Store P into the holder's
hazard slot"); the `HazPtr` implementation is not among the given source files. -/
def hazptr_protect (s : HazardSlot) (p : Ptr) : HazardSlot :=
  { s with prot := p }

/-- Modelled from the spec: `HazPtr::reset` stores null into the slot's
`protected` cell (release ordering); the `HazPtr` implementation is not among
the given source files. -/
def hazptr_reset (s : HazardSlot) : HazardSlot × SlotEvent :=
  ({ s with prot := 0 }, SlotEvent.resetEv)

/-- Modelled from the spec: `HazPtrDomain::release` marks the slot inactive,
returning it to the domain's free pool for reuse (the slot stays in the slot
list); the domain implementation is not among the given source files. -/
def domain_release (s : HazardSlot) : HazardSlot × SlotEvent :=
  ({ s with active := false }, SlotEvent.releaseEv)

/-- `HazPtrHolder::reset` (src/holder.rs): `self.hazard.reset()`.  Only the
slot's `protected` cell changes; the domain is untouched. -/
def HolderSt.reset (h : HolderSt) : HolderSt :=
  { h with slot := (hazptr_reset h.slot).1 }

/-- `Drop for HazPtrHolder` (src/holder.rs): first `self.hazard.reset()`,
then `self.domain.release(self.hazard)`; the result records the final slot
state and the emitted events in execution order. -/
def holder_drop (s : HazardSlot) : HazardSlot × List SlotEvent :=
  let r := hazptr_reset s
  let q := domain_release r.1
  (q.1, [r.2, q.2])

/-- The panic message of the domain check in `try_protect_actual`
(src/holder.rs); the debug post-load check uses the same message. -/
def domainMismatchMsg : String :=
  "object guarded by different domain than holder used to access it"

/-- Ambient data of a protect call: whether debug assertions are compiled in,
the holder domain's identity (`self.domain.id()`), the holder domain's address
(`self.domain as *const HazPtrDomain`), and the map from an object's address to
the address of its self-reported domain (`r.domain() as *const HazPtrDomain`). -/
structure ProtectCtx where
  dbg : Bool
  holderId : Nat
  holderAddr : Nat
  objDomainAddr : Ptr → Nat

/-- Result of one `try_protect_actual!` expansion: the holder's state after
the call, and either a panic message (outer `Except.error`) or the returned
Rust `Result` (`Err ptr2` on failed validation, `Ok none` for a protected
null, `Ok (some p)` for a protected borrow of the object at `p`). -/
structure TPResult where
  holder : HolderSt
  out : Except String (Except Ptr (Option Ptr))

/-- The body of `try_protect_actual!` after the domain assertion
(src/holder.rs lines 33-64): store the candidate into the hazard slot, light
barrier, compare with the acquire re-load `ptr2`; on mismatch reset the slot
and return `Err ptr2`; on match return the borrow, running the post-load
debug check when the cell was unattributed. -/
def try_protect_body (c : ProtectCtx) (h : HolderSt) (attributed : Bool)
    (ptr ptr2 : Ptr) : TPResult :=
  let h1 : HolderSt := { h with slot := hazptr_protect h.slot ptr }
  if ptr ≠ ptr2 then
    ⟨{ h1 with slot := (hazptr_reset h1.slot).1 }, Except.ok (Except.error ptr2)⟩
  else if ptr = 0 then
    ⟨h1, Except.ok (Except.ok none)⟩
  else if attributed = false ∧ c.dbg = true ∧ c.holderAddr ≠ c.objDomainAddr ptr then
    ⟨h1, Except.error domainMismatchMsg⟩
  else
    ⟨h1, Except.ok (Except.ok (some ptr))⟩

/-- `try_protect_actual!` (src/holder.rs lines 23-66): if the cell reports a
domain identity, assert it equals the holder's (`assert_eq!`, unconditional),
then run the body. -/
def try_protect_actual (c : ProtectCtx) (h : HolderSt) (ptr : Ptr)
    (srcDomain : Option Nat) (ptr2 : Ptr) : TPResult :=
  match srcDomain with
  | some d =>
      if c.holderId = d then try_protect_body c h true ptr ptr2
      else ⟨h, Except.error domainMismatchMsg⟩
  | none => try_protect_body c h false ptr ptr2

/-- Result of a `protect` call observed through a finite list of acquire
re-loads: the holder's state when the observations ran out or the call
finished, and either a panic, or `some borrow` when the call returned, or
`none` when the loop is still running after the given observations. -/
structure PResult where
  holder : HolderSt
  out : Except String (Option (Option Ptr))

/-- The loop of `HazPtrHolder::protect` (src/holder.rs lines 93-103): run
`try_protect_actual!` with the current candidate against the next observed
cell value; return on `Ok`, retry with the fresh pointer on `Err`. -/
def protect_loop (c : ProtectCtx) (srcDomain : Option Nat) (h : HolderSt)
    (ptr : Ptr) : List Ptr → PResult
  | [] => ⟨h, Except.ok none⟩
  | ptr2 :: rest =>
    let r := try_protect_actual c h ptr srcDomain ptr2
    match r.out with
    | Except.error m => ⟨r.holder, Except.error m⟩
    | Except.ok (Except.ok res) => ⟨r.holder, Except.ok (some res)⟩
    | Except.ok (Except.error p2) => protect_loop c srcDomain r.holder p2 rest

/-- `HazPtrHolder::protect` (src/holder.rs lines 83-104): load the initial
candidate from the cell with relaxed ordering (the parameter `relaxed`), then
loop; `obs` is the list of values the acquire re-loads observe. -/
def protect (c : ProtectCtx) (srcDomain : Option Nat) (h : HolderSt)
    (relaxed : Ptr) (obs : List Ptr) : PResult :=
  protect_loop c srcDomain h relaxed obs

/-- The operations `swap` performs on `self`'s atomic cell, with the ordering
used; `other`'s cell is accessed through `get_mut` (exclusive, non-atomic) and
emits no atomic operation. -/
inductive AtomicOp
  | swapOp (ord : MemOrder)
  deriving DecidableEq, Repr

/-- The panic message of the domain assertion in `HazPtrObjectRefExt::swap`
(src/object.rs). -/
def swapMismatchMsg : String :=
  "tried to swap object with differing domains"

/-- `AtomicBox`: the atomic pointer cell plus its recorded domain identity
(src/object.rs).  `DomainId` lives in the missing domain implementation; it is
modelled from the spec as a `Nat` compared by equality. -/
structure AtomicBox where
  ptr : Ptr
  domain_id : Nat
  deriving DecidableEq, Repr

/-- Outcome of a successful `swap`: both refs afterwards, plus the list of
atomic operations performed on `self`'s cell, in order. -/
structure SwapResult where
  selfAfter : AtomicBox
  otherAfter : AtomicBox
  selfOps : List AtomicOp
  deriving DecidableEq, Repr

/-- `HazPtrObjectRefExt::swap` (src/object.rs lines 65-80):
`assert_eq!(self.domain_id(), other.domain_id())`, then
`old = self.ptr().swap(*other_ptr, order); *other_ptr = old`. -/
def AtomicBox.swap (self other : AtomicBox) (order : MemOrder) :
    Except String SwapResult :=
  if self.domain_id = other.domain_id then
    Except.ok ⟨⟨other.ptr, self.domain_id⟩, ⟨self.ptr, other.domain_id⟩,
      [AtomicOp.swapOp order]⟩
  else Except.error swapMismatchMsg

/-- `AtomicBox::create` (src/object.rs lines 143-150): heap-allocate the object
and record its domain identity.  The fresh address `Box::into_raw(Box::new(object))`
is the parameter `newPtr`; `object.domain().id().duplicate()` is `objDomainId`
(the `DomainId` implementation is in the missing domain file and is modelled
from the spec as a `Nat`). -/
def AtomicBox.create (objDomainId : Nat) (newPtr : Ptr) : AtomicBox :=
  ⟨newPtr, objDomainId⟩

/-- Outcome of a successful `replace`: `self`'s cell afterwards, the returned
displaced ref, and the atomic operations on `self`'s cell. -/
structure ReplaceResult where
  selfAfter : AtomicBox
  returned : AtomicBox
  selfOps : List AtomicOp
  deriving DecidableEq, Repr

/-- `HazPtrObjectRefExt::replace` (src/object.rs lines 82-89):
`let mut other = Self::create(other); self.swap(&mut other, order); other`. -/
def AtomicBox.replace (self : AtomicBox) (objDomainId : Nat) (newPtr : Ptr)
    (order : MemOrder) : Except String ReplaceResult :=
  let other := AtomicBox.create objDomainId newPtr
  match self.swap other order with
  | Except.ok r => Except.ok ⟨r.selfAfter, r.otherAfter, r.selfOps⟩
  | Except.error m => Except.error m

/-- The spec's description of `replace` ("short form of create-then-swap,
returning the displaced ref"): first create a ref from the object, then swap
it with `self`, and return the ref that now holds the displaced pointer. -/
def replaceSpecCreateThenSwap (self : AtomicBox) (objDomainId : Nat)
    (newPtr : Ptr) (order : MemOrder) : Except String ReplaceResult :=
  let created := AtomicBox.create objDomainId newPtr
  match self.swap created order with
  | Except.ok r => Except.ok ⟨r.selfAfter, r.otherAfter, r.selfOps⟩
  | Except.error m => Except.error m

/-- Result of a reclamation scan (`eager_reclaim`): the count of freed
objects, the freed records themselves (each freed record's deleter runs once),
and the domain afterwards. -/
structure ScanResult where
  count : Nat
  freed : List RetireRecord
  dom : Domain
  deriving DecidableEq, Repr

/-- Modelled from the spec: `HazPtrDomain::eager_reclaim` and its reclamation
scan, from spec section 4.1 (the domain implementation is not among the given
source files): detach the retire list, collect the set H of non-null
`protected` addresses of the slot list, call the deleter of every record whose
pointer is not in H, and return the still-hazardous records to the retire
list; the returned count is the number of freed objects. -/
def Domain.eager_reclaim (d : Domain) : ScanResult :=
  let hazards := (d.slots.filter (fun s => decide (s.prot ≠ 0))).map
    (fun s => s.prot)
  let freeable := d.retired.filter (fun r => decide (¬ r.ptr ∈ hazards))
  let kept := d.retired.filter (fun r => decide (r.ptr ∈ hazards))
  ⟨freeable.length, freeable, ⟨d.slots, kept⟩⟩

/-- Modelled from the spec: `HazPtrDomain::retire` appends a retire record to
the domain's retire list (the domain implementation is not among the given
source files; threshold-triggered scans are not part of the claims and are
omitted, matching `eager_reclaim`-driven tests). -/
def Domain.retire (d : Domain) (p : Ptr) (del : Nat) : Domain :=
  ⟨d.slots, d.retired ++ [⟨p, del⟩]⟩

example :
    (try_protect_actual ⟨true, 7, 5, fun _ => 5⟩ ⟨⟨3, true⟩, ⟨[], []⟩⟩ 4 (some 7) 4).out
      = Except.ok (Except.ok (some 4)) := by
  simp [try_protect_actual, try_protect_body]

example :
    (try_protect_actual ⟨true, 7, 5, fun _ => 5⟩ ⟨⟨3, true⟩, ⟨[], []⟩⟩ 4 (some 8) 4).out
      = Except.error domainMismatchMsg := by
  simp [try_protect_actual]

example :
    (Domain.eager_reclaim ⟨[⟨4, true⟩], [⟨4, 0⟩, ⟨9, 1⟩]⟩).count = 1 := by
  simp [Domain.eager_reclaim]

example :
    (Domain.eager_reclaim ⟨[⟨0, false⟩], [⟨4, 0⟩]⟩).freed = [⟨4, 0⟩] := by
  simp [Domain.eager_reclaim]

/-- C2: when the candidate pointer stored into the hazard slot equals the
pointer reloaded from the cell with acquire ordering, `try_protect` returns
`Ok` with a borrow tied to the holder (`some ptr` for non-null, `none` for
null), and `protect` returns that borrow from its first validated iteration.
The slot ends up holding the candidate, the `active` flag and the domain are
untouched, and since the domain (hence its retire list) is unchanged and the
holder protocol never scans, no deleter is invoked.  The hypotheses say the
call does not trip the (separately specified) domain assertions. -/
theorem validated_protect_returns_borrow (c : ProtectCtx) (h : HolderSt)
    (ptr : Ptr) (srcDomain : Option Nat) (obs : List Ptr)
    (hdom : ∀ d, srcDomain = some d → c.holderId = d)
    (hdbg : srcDomain = none → c.dbg = true → ptr ≠ 0 →
      c.holderAddr = c.objDomainAddr ptr) :
    try_protect_actual c h ptr srcDomain ptr =
      ⟨⟨⟨ptr, h.slot.active⟩, h.dom⟩,
        Except.ok (Except.ok (if ptr = 0 then none else some ptr))⟩
    ∧ protect c srcDomain h ptr (ptr :: obs) =
      ⟨⟨⟨ptr, h.slot.active⟩, h.dom⟩,
        Except.ok (some (if ptr = 0 then none else some ptr))⟩ := by
  have key : try_protect_actual c h ptr srcDomain ptr =
      ⟨⟨⟨ptr, h.slot.active⟩, h.dom⟩,
        Except.ok (Except.ok (if ptr = 0 then none else some ptr))⟩ := by
    cases srcDomain with
    | none =>
      by_cases h0 : ptr = 0
      · simp [try_protect_actual, try_protect_body, hazptr_protect, h0]
      · by_cases hd : c.dbg = true
        · have haddr := hdbg rfl hd h0
          simp [try_protect_actual, try_protect_body, hazptr_protect, h0, haddr]
        · simp [try_protect_actual, try_protect_body, hazptr_protect, h0, hd]
    | some d =>
      have hid := hdom d rfl
      by_cases h0 : ptr = 0 <;>
        simp [try_protect_actual, try_protect_body, hazptr_protect, h0, hid]
  refine ⟨key, ?_⟩
  simp [protect, protect_loop, key]

/-- Witness for C2 at a concrete input: an attributed cell of the holder's
own domain holding pointer 4, reload agreeing. -/
theorem validated_protect_returns_borrow_witness :
    try_protect_actual ⟨true, 7, 5, fun _ => 5⟩ ⟨⟨3, true⟩, ⟨[], []⟩⟩ 4 (some 7) 4 =
      ⟨⟨⟨4, true⟩, ⟨[], []⟩⟩, Except.ok (Except.ok (some 4))⟩
    ∧ protect ⟨true, 7, 5, fun _ => 5⟩ (some 7) ⟨⟨3, true⟩, ⟨[], []⟩⟩ 4 [4] =
      ⟨⟨⟨4, true⟩, ⟨[], []⟩⟩, Except.ok (some (some 4))⟩ := by
  have h := validated_protect_returns_borrow ⟨true, 7, 5, fun _ => 5⟩
    ⟨⟨3, true⟩, ⟨[], []⟩⟩ 4 (some 7) []
    (by intro d hd; cases hd; rfl) (by intro hn; simp at hn)
  simpa using h

/-- C3: when the candidate differs from the reloaded pointer, the hazard slot
is cleared (reset to null) before anything else: `try_protect` returns
`Err` carrying exactly the fresh pointer, and `protect` continues its loop
with the fresh pointer as the new candidate (so a mismatched validation never
produces the call's return value itself). -/
theorem mismatched_validation_resets_and_retries (c : ProtectCtx) (h : HolderSt)
    (ptr ptr2 : Ptr) (srcDomain : Option Nat) (obs : List Ptr)
    (hne : ptr ≠ ptr2)
    (hdom : ∀ d, srcDomain = some d → c.holderId = d) :
    try_protect_actual c h ptr srcDomain ptr2 =
      ⟨⟨⟨0, h.slot.active⟩, h.dom⟩, Except.ok (Except.error ptr2)⟩
    ∧ protect_loop c srcDomain h ptr (ptr2 :: obs) =
      protect_loop c srcDomain ⟨⟨0, h.slot.active⟩, h.dom⟩ ptr2 obs := by
  have key : try_protect_actual c h ptr srcDomain ptr2 =
      ⟨⟨⟨0, h.slot.active⟩, h.dom⟩, Except.ok (Except.error ptr2)⟩ := by
    cases srcDomain with
    | none =>
      simp [try_protect_actual, try_protect_body, hazptr_protect, hazptr_reset, hne]
    | some d =>
      have hid := hdom d rfl
      simp [try_protect_actual, try_protect_body, hazptr_protect, hazptr_reset, hne, hid]
  refine ⟨key, ?_⟩
  simp [protect_loop, key]

/-- Witness for C3 at a concrete input: candidate 4, the cell moved to 9. -/
theorem mismatched_validation_resets_and_retries_witness :
    try_protect_actual ⟨true, 7, 5, fun _ => 5⟩ ⟨⟨3, true⟩, ⟨[], []⟩⟩ 4 (some 7) 9 =
      ⟨⟨⟨0, true⟩, ⟨[], []⟩⟩, Except.ok (Except.error 9)⟩
    ∧ protect_loop ⟨true, 7, 5, fun _ => 5⟩ (some 7) ⟨⟨3, true⟩, ⟨[], []⟩⟩ 4 [9] =
      protect_loop ⟨true, 7, 5, fun _ => 5⟩ (some 7) ⟨⟨0, true⟩, ⟨[], []⟩⟩ 9 [] := by
  have h := mismatched_validation_resets_and_retries ⟨true, 7, 5, fun _ => 5⟩
    ⟨⟨3, true⟩, ⟨[], []⟩⟩ 4 9 (some 7) [] (by decide)
    (by intro d hd; cases hd; rfl)
  simpa using h

/-- C4: a protect or try_protect call on a cell that reports a domain identity
different from the holder's domain identity asserts (panics); in particular a
holder of domain R protecting a cell owned by a distinct domain W asserts. -/
theorem cross_domain_protect_asserts (c : ProtectCtx) (h : HolderSt)
    (ptr ptr2 : Ptr) (w : Nat) (obs : List Ptr)
    (hne : c.holderId ≠ w) :
    (try_protect_actual c h ptr (some w) ptr2).out = Except.error domainMismatchMsg
    ∧ (protect c (some w) h ptr (ptr2 :: obs)).out = Except.error domainMismatchMsg := by
  have key : try_protect_actual c h ptr (some w) ptr2 =
      ⟨h, Except.error domainMismatchMsg⟩ := by
    simp [try_protect_actual, hne]
  exact ⟨by simp [key], by simp [protect, protect_loop, key]⟩

/-- Witness for C4 at a concrete input: holder domain 1, cell domain 2
(the shape of the `feels_bad` test). -/
theorem cross_domain_protect_asserts_witness :
    (try_protect_actual ⟨true, 1, 5, fun _ => 5⟩ ⟨⟨0, true⟩, ⟨[], []⟩⟩ 4 (some 2) 4).out
      = Except.error domainMismatchMsg
    ∧ (protect ⟨true, 1, 5, fun _ => 5⟩ (some 2) ⟨⟨0, true⟩, ⟨[], []⟩⟩ 4 [4]).out
      = Except.error domainMismatchMsg :=
  cross_domain_protect_asserts ⟨true, 1, 5, fun _ => 5⟩ ⟨⟨0, true⟩, ⟨[], []⟩⟩
    4 4 2 [] (by decide)

/-- C10: the domain assertion fires before the candidate is stored into the
hazard slot, so the failed call leaves the holder (in particular its slot)
completely unchanged; and the assertion is an unconditional `assert_eq!`, so
it fires identically in a context with debug assertions compiled out. -/
theorem cross_domain_assert_precedes_store_release_too (c : ProtectCtx)
    (h : HolderSt) (ptr ptr2 : Ptr) (w : Nat) (hne : c.holderId ≠ w) :
    try_protect_actual c h ptr (some w) ptr2 = ⟨h, Except.error domainMismatchMsg⟩
    ∧ try_protect_actual ⟨false, c.holderId, c.holderAddr, c.objDomainAddr⟩ h ptr
        (some w) ptr2 = ⟨h, Except.error domainMismatchMsg⟩ := by
  constructor <;> simp [try_protect_actual, hne]

/-- Witness for C10 at a concrete input: slot previously holding 3 stays 3. -/
theorem cross_domain_assert_precedes_store_release_too_witness :
    try_protect_actual ⟨true, 1, 5, fun _ => 5⟩ ⟨⟨3, true⟩, ⟨[], []⟩⟩ 4 (some 2) 4 =
      ⟨⟨⟨3, true⟩, ⟨[], []⟩⟩, Except.error domainMismatchMsg⟩
    ∧ try_protect_actual ⟨false, 1, 5, fun _ => 5⟩ ⟨⟨3, true⟩, ⟨[], []⟩⟩ 4 (some 2) 4 =
      ⟨⟨⟨3, true⟩, ⟨[], []⟩⟩, Except.error domainMismatchMsg⟩ :=
  cross_domain_assert_precedes_store_release_too ⟨true, 1, 5, fun _ => 5⟩
    ⟨⟨3, true⟩, ⟨[], []⟩⟩ 4 4 2 (by decide)

/-- C8: the post-load debug check runs exactly on a successful protect of a
non-null pointer through an unattributed cell in a debug build: there it
panics on domain-address mismatch; with debug assertions compiled out it does
not run; on a cell attributed to the holder's domain it does not run even
with mismatched addresses; and a protected null skips it. -/
theorem debug_domain_check_scope (c : ProtectCtx) (h : HolderSt) (ptr : Ptr)
    (hptr : ptr ≠ 0) (hmis : c.holderAddr ≠ c.objDomainAddr ptr) :
    (c.dbg = true →
      try_protect_actual c h ptr none ptr =
        ⟨⟨⟨ptr, h.slot.active⟩, h.dom⟩, Except.error domainMismatchMsg⟩)
    ∧ (c.dbg = false →
      try_protect_actual c h ptr none ptr =
        ⟨⟨⟨ptr, h.slot.active⟩, h.dom⟩, Except.ok (Except.ok (some ptr))⟩)
    ∧ try_protect_actual c h ptr (some c.holderId) ptr =
        ⟨⟨⟨ptr, h.slot.active⟩, h.dom⟩, Except.ok (Except.ok (some ptr))⟩
    ∧ try_protect_actual c h 0 none 0 =
        ⟨⟨⟨0, h.slot.active⟩, h.dom⟩, Except.ok (Except.ok none)⟩ := by
  refine ⟨?_, ?_, ?_, ?_⟩
  · intro hd
    simp [try_protect_actual, try_protect_body, hazptr_protect, hptr, hd, hmis]
  · intro hd
    simp [try_protect_actual, try_protect_body, hazptr_protect, hptr, hd]
  · simp [try_protect_actual, try_protect_body, hazptr_protect, hptr]
  · simp [try_protect_actual, try_protect_body, hazptr_protect]

/-- Witness for C8 at a concrete input: holder domain address 5, object
self-reporting domain address 9; panic in debug, no panic in release. -/
theorem debug_domain_check_scope_witness :
    try_protect_actual ⟨true, 7, 5, fun _ => 9⟩ ⟨⟨3, true⟩, ⟨[], []⟩⟩ 4 none 4 =
      ⟨⟨⟨4, true⟩, ⟨[], []⟩⟩, Except.error domainMismatchMsg⟩
    ∧ try_protect_actual ⟨false, 7, 5, fun _ => 9⟩ ⟨⟨3, true⟩, ⟨[], []⟩⟩ 4 none 4 =
      ⟨⟨⟨4, true⟩, ⟨[], []⟩⟩, Except.ok (Except.ok (some 4))⟩ :=
  ⟨(debug_domain_check_scope ⟨true, 7, 5, fun _ => 9⟩ ⟨⟨3, true⟩, ⟨[], []⟩⟩ 4
      (by decide) (by decide)).1 rfl,
   (debug_domain_check_scope ⟨false, 7, 5, fun _ => 9⟩ ⟨⟨3, true⟩, ⟨[], []⟩⟩ 4
      (by decide) (by decide)).2.1 rfl⟩

/-- C5: `swap` asserts that both refs' domain identities are equal; on
success the two inner pointers are exchanged (self's cell afterwards holds
other's previous pointer and vice versa), and the operation on self's cell is
a single atomic swap performed with exactly the caller-supplied ordering. -/
theorem swap_asserts_domains_and_exchanges (a b : AtomicBox) (ord : MemOrder) :
    (a.domain_id ≠ b.domain_id → a.swap b ord = Except.error swapMismatchMsg)
    ∧ (a.domain_id = b.domain_id →
        a.swap b ord = Except.ok ⟨⟨b.ptr, a.domain_id⟩, ⟨a.ptr, b.domain_id⟩,
          [AtomicOp.swapOp ord]⟩) := by
  constructor <;> intro hd <;> simp [AtomicBox.swap, hd]

/-- Witness for C5 at concrete inputs: a matching-domain exchange and a
mismatched-domain assertion. -/
theorem swap_asserts_domains_and_exchanges_witness :
    AtomicBox.swap ⟨1, 5⟩ ⟨2, 5⟩ MemOrder.seqcst =
      Except.ok ⟨⟨2, 5⟩, ⟨1, 5⟩, [AtomicOp.swapOp MemOrder.seqcst]⟩
    ∧ AtomicBox.swap ⟨1, 5⟩ ⟨2, 6⟩ MemOrder.relaxed = Except.error swapMismatchMsg :=
  ⟨(swap_asserts_domains_and_exchanges ⟨1, 5⟩ ⟨2, 5⟩ MemOrder.seqcst).2 rfl,
   (swap_asserts_domains_and_exchanges ⟨1, 5⟩ ⟨2, 6⟩ MemOrder.relaxed).1 (by decide)⟩

/-- C6: `replace` is exactly create-then-swap — it equals the composition of
creating a ref from the object (heap allocation modelled by the fresh pointer,
with the object's domain identity recorded) and swapping it with `self` — and
when the domains agree the returned ref holds the displaced pointer while
self's cell holds the new object's pointer, via a single swap with the
caller-supplied ordering. -/
theorem replace_is_create_then_swap (a : AtomicBox) (objDomainId : Nat)
    (newPtr : Ptr) (ord : MemOrder) :
    a.replace objDomainId newPtr ord = replaceSpecCreateThenSwap a objDomainId newPtr ord
    ∧ (a.domain_id = objDomainId →
        a.replace objDomainId newPtr ord =
          Except.ok ⟨⟨newPtr, a.domain_id⟩, ⟨a.ptr, objDomainId⟩,
            [AtomicOp.swapOp ord]⟩) := by
  refine ⟨rfl, ?_⟩
  intro hd
  simp [AtomicBox.replace, AtomicBox.swap, AtomicBox.create, hd]

/-- Witness for C6 at a concrete input: replacing the object behind pointer 1
with a fresh object at pointer 2 in domain 5 returns the displaced ref. -/
theorem replace_is_create_then_swap_witness :
    AtomicBox.replace ⟨1, 5⟩ 5 2 MemOrder.seqcst =
      Except.ok ⟨⟨2, 5⟩, ⟨1, 5⟩, [AtomicOp.swapOp MemOrder.seqcst]⟩ :=
  (replace_is_create_then_swap ⟨1, 5⟩ 5 2 MemOrder.seqcst).2 rfl

/-- C7: dropping a holder first clears its hazard slot (storing null, exactly
as `reset` does) and only then returns the slot to the issuing domain's free
pool (marking it inactive); the emitted event list shows each step happens
exactly once per drop, in that order. -/
theorem holder_drop_resets_then_releases (s : HazardSlot) :
    holder_drop s = (⟨0, false⟩, [SlotEvent.resetEv, SlotEvent.releaseEv]) := by
  cases s
  rfl

/-- C9: resetting a holder twice in a row leaves the holder, its hazard slot,
and its domain in the same state as a single reset; the slot holds null and
nothing else changes. -/
theorem holder_reset_idempotent (h : HolderSt) : h.reset.reset = h.reset := rfl

/-- C1: a scan never frees a retired record whose (non-null) pointer is held
by some hazard slot of the domain's slot list; and concretely, after retiring
`p` to a domain whose one slot protects `p`, `eager_reclaim` frees nothing and
returns 0, while after the holder is dropped (slot reset, then released) the
next `eager_reclaim` returns 1 and frees exactly the one record for `p` — its
deleter runs exactly once, and no record for `p` remains for later scans. -/
theorem retired_object_protected_by_slot_not_reclaimed
    (p del : Nat) (d : Domain) (r : RetireRecord)
    (hp : p ≠ 0) (_hr : r ∈ d.retired) (hptr : r.ptr ≠ 0)
    (hs : ∃ s ∈ d.slots, s.prot = r.ptr) :
    r ∉ d.eager_reclaim.freed
    ∧ ((Domain.mk [⟨p, true⟩] []).retire p del).eager_reclaim.count = 0
    ∧ ((Domain.mk [⟨p, true⟩] []).retire p del).eager_reclaim.freed = []
    ∧ (Domain.mk [(holder_drop ⟨p, true⟩).1]
        ((Domain.mk [⟨p, true⟩] []).retire p del).eager_reclaim.dom.retired
        ).eager_reclaim.count = 1
    ∧ (Domain.mk [(holder_drop ⟨p, true⟩).1]
        ((Domain.mk [⟨p, true⟩] []).retire p del).eager_reclaim.dom.retired
        ).eager_reclaim.freed = [⟨p, del⟩]
    ∧ (Domain.mk [(holder_drop ⟨p, true⟩).1]
        ((Domain.mk [⟨p, true⟩] []).retire p del).eager_reclaim.dom.retired
        ).eager_reclaim.dom.retired = [] := by
  refine ⟨?_, ?_, ?_, ?_, ?_, ?_⟩
  · intro hmem
    obtain ⟨s, hsmem, hsprot⟩ := hs
    have hhaz : r.ptr ∈ (d.slots.filter (fun s => decide (s.prot ≠ 0))).map
        (fun s => s.prot) := by
      refine List.mem_map.mpr ⟨s, ?_, hsprot⟩
      exact List.mem_filter.mpr ⟨hsmem, by simp [hsprot, hptr]⟩
    simp only [Domain.eager_reclaim, List.mem_filter, decide_eq_true_eq] at hmem
    exact hmem.2 hhaz
  · simp [Domain.eager_reclaim, Domain.retire, hp]
  · simp [Domain.eager_reclaim, Domain.retire, hp]
  · simp [Domain.eager_reclaim, Domain.retire, holder_drop, hazptr_reset,
      domain_release, hp]
  · simp [Domain.eager_reclaim, Domain.retire, holder_drop, hazptr_reset,
      domain_release, hp]
  · simp [Domain.eager_reclaim, Domain.retire, holder_drop, hazptr_reset,
      domain_release, hp]

/-- Witness for C1 at concrete inputs: a domain whose slot protects pointer 2
does not free the record for 2, and the retire/scan/drop/scan scenario at
pointer 1. -/
theorem retired_object_protected_by_slot_not_reclaimed_witness :
    (⟨2, 3⟩ : RetireRecord) ∉ (Domain.mk [⟨2, true⟩] [⟨2, 3⟩]).eager_reclaim.freed
    ∧ ((Domain.mk [⟨1, true⟩] []).retire 1 0).eager_reclaim.count = 0
    ∧ (Domain.mk [(holder_drop ⟨1, true⟩).1]
        ((Domain.mk [⟨1, true⟩] []).retire 1 0).eager_reclaim.dom.retired
        ).eager_reclaim.count = 1 := by
  have h := retired_object_protected_by_slot_not_reclaimed 1 0
    ⟨[⟨2, true⟩], [⟨2, 3⟩]⟩ ⟨2, 3⟩ (by decide) (by decide) (by decide) (by decide)
  exact ⟨h.1, h.2.1, h.2.2.2.1⟩
